import Mathlib

/-!
Verification of the EventsManager recurring-event window calculator
(src/events-manager.js, class EventsManager).

The JavaScript code works with Date objects; all of its arithmetic is done
in UTC through getUTCFullYear / getUTCMonth / getUTCDate / getUTCDay,
Date.UTC, setUTCDate and setUTCHours.  We model an instant as an integer
count of milliseconds since the Unix epoch (negative before 1970), exactly
the time value carried by a JS Date.  The ECMA-262 operations MakeDay,
Day, WeekDay, MonthFromTime and so on are floor divisions and
sign-of-divisor remainders; on Int with a positive divisor the Lean
operators / and % are precisely floor division and that remainder, so they
are used throughout.  The proleptic-Gregorian conversion between epoch
days and (year, month, day) triples is implemented with the standard
era-based algorithm, which is extensionally the calendar mandated by
ECMA-262 (sanity theorems on concrete dates appear below).
-/

namespace EventsManager

/-- Civil (proleptic Gregorian) date: year, 1-based month, 1-based day. -/
structure CivilDate where
  year : Int
  month : Int
  day : Int
deriving DecidableEq

/-- Days from the epoch 1970-01-01 of a civil date (era-based algorithm).
The day component may lie outside the month and simply offsets the result,
matching the normalization ECMA-262 MakeDay applies to the day argument. -/
def daysFromCivil (y m d : Int) : Int :=
  let yShift := if m ≤ 2 then y - 1 else y
  let era := yShift / 400
  let yoe := yShift - era * 400
  let mp := (m + 9) % 12
  let doy := (153 * mp + 2) / 5 + d - 1
  let doe := yoe * 365 + yoe / 4 - yoe / 100 + doy
  era * 146097 + doe - 719468

/-- Civil date of an epoch day (inverse of daysFromCivil on valid dates). -/
def civilFromDays (z : Int) : CivilDate :=
  let zs := z + 719468
  let era := zs / 146097
  let doe := zs - era * 146097
  let yoe := (doe - doe / 1460 + doe / 36524 - doe / 146096) / 365
  let y := yoe + era * 400
  let doy := doe - (365 * yoe + yoe / 4 - yoe / 100)
  let mp := (5 * doy + 2) / 153
  let d := doy - (153 * mp + 2) / 5 + 1
  let m := if mp < 10 then mp + 3 else mp - 9
  { year := if m ≤ 2 then y + 1 else y, month := m, day := d }

/-- Epoch day of an instant, the ECMA-262 Day(t) = floor(t / msPerDay). -/
def epochDay (t : Int) : Int := t / 86400000

/-- UTC calendar year of an instant (JS getUTCFullYear). -/
def getUTCFullYear (t : Int) : Int := (civilFromDays (epochDay t)).year

/-- UTC month of an instant, 0-based as in JS getUTCMonth. -/
def getUTCMonth (t : Int) : Int := (civilFromDays (epochDay t)).month - 1

/-- UTC day of month of an instant (JS getUTCDate). -/
def getUTCDate (t : Int) : Int := (civilFromDays (epochDay t)).day

/-- UTC day of week, 0 = Sunday (JS getUTCDay); 1970-01-01 was a Thursday. -/
def getUTCDay (t : Int) : Int := (epochDay t + 4) % 7

/-- Model of Date.UTC(year, month, day, h, mi, s, ms) with the month 0-based
and out-of-range month and day fields normalized as ECMA-262 MakeDay does. -/
def dateUTC (year month day h mi s ms : Int) : Int :=
  let ym := year + month / 12
  let mn := month % 12
  daysFromCivil ym (mn + 1) day * 86400000
    + h * 3600000 + mi * 60000 + s * 1000 + ms

/-- Model of d.setUTCDate(d.getUTCDate() + n): in UTC this shifts the time
value by exactly n days, since MakeDay is linear in its day argument. -/
def addDays (t n : Int) : Int := t + n * 86400000

/-- Model of d.setUTCHours(8, 0, 0, 0): reset to 08:00:00.000 of the same
UTC day. -/
def atHour8 (t : Int) : Int := epochDay t * 86400000 + 8 * 3600000

theorem daysFromCivil_epoch : daysFromCivil 1970 1 1 = 0 := by decide

theorem daysFromCivil_sample : daysFromCivil 2026 2 1 = 20485 := by decide

theorem civilFromDays_epoch : civilFromDays 0 = ⟨1970, 1, 1⟩ := by decide

theorem civilFromDays_sample : civilFromDays 20485 = ⟨2026, 2, 1⟩ := by decide

theorem civilFromDays_leap : civilFromDays 11016 = ⟨2000, 2, 29⟩ := by decide

/-! Event definitions, as loaded from the JSON configuration.  A repeating
event carries a modifier ("monthly" or "weekly"), a baseDate string (a
decimal day of month for monthly events, an English day name for weekly
ones) and a duration in days.  A one-time event carries explicit start and
end instants; the code parses them from ISO strings with new Date(...),
which we model as the parsed instants themselves.  The active field is
optional in the JSON; the code tests event.active === false, so only an
explicit false soft-deletes a definition. -/

/-- Configuration entry of repeating_events. -/
structure RepeatingEvent where
  title : String
  icon : String
  image : Option String
  description : Option String
  modifier : String
  baseDate : String
  durationDays : Int
  active : Option Bool
deriving DecidableEq

/-- Configuration entry of one_time_events, start and end already parsed
to instants.  The field named end in the source is called stop here
because end is a Lean keyword. -/
structure OneTimeEvent where
  title : String
  icon : String
  image : Option String
  description : Option String
  start : Int
  stop : Int
  active : Option Bool
deriving DecidableEq

/-- Loaded events configuration.  An absent array behaves exactly like an
empty one (the source only iterates it), so both are modelled as []. -/
structure EventsConfig where
  repeating_events : List RepeatingEvent
  one_time_events : List OneTimeEvent
deriving DecidableEq

/-- Computed event window; the field named end in the source is called
stop here because end is a Lean keyword. -/
structure Window where
  start : Int
  stop : Int
deriving DecidableEq

/-- Countdown record returned by calculateCountdown. -/
structure Countdown where
  days : Int
  hours : Int
  minutes : Int
  seconds : Int
  totalMs : Int
deriving DecidableEq

/-- View object pushed by getActiveEvents. -/
structure ActiveEvent where
  title : String
  icon : String
  image : Option String
  description : String
  type : String
  modifier : Option String
  start : Int
  stop : Int
  countdown : Countdown
  countdownText : String
deriving DecidableEq

/-- View object pushed by getUpcomingEvents. -/
structure UpcomingEvent where
  title : String
  icon : String
  image : Option String
  description : String
  type : String
  modifier : Option String
  start : Int
  stop : Int
  isActive : Bool
deriving DecidableEq

/-- Calendar marker pushed by getCalendarForMonth. -/
structure CalendarEntry where
  date : Int
  fullDate : Int
  title : String
  icon : String
  type : String
  isStart : Bool
  isEnd : Bool
deriving DecidableEq

/-- Mutable fields of the EventsManager singleton. -/
structure ManagerState where
  eventsConfig : Option EventsConfig
  cachedActiveEvents : Option (List ActiveEvent)
  lastUpdateTime : Option Int
deriving DecidableEq

/-- Model of parseInt(baseDate, 10) for the decimal day-of-month strings of
the configuration.  On a non-numeric string parseInt returns NaN, which we
do not model (0 is returned instead); theorems concerning monthly events
therefore carry the configuration invariant that baseDate is numeric. -/
def parseIntDecimal (s : String) : Int :=
  if s.data ≠ [] ∧ s.data.all (fun c => c.isDigit) then
    (s.data.foldl (fun n c => n * 10 + (c.toNat - 48)) 0 : Nat)
  else 0

/-- The days-of-week table of calculateWeeklyEvent. -/
def daysOfWeek : List String :=
  ["Sunday", "Monday", "Tuesday", "Wednesday", "Thursday", "Friday", "Saturday"]

/-- Model of daysOfWeek.indexOf(baseDate), with none for the -1 result. -/
def dayOfWeekIndex (baseDate : String) : Option Int :=
  (daysOfWeek.findIdx? (fun s => s == baseDate)).map (fun n => (n : Int))

/-- calculateMonthlyEvent from the source: monthly events start at 08:00 UTC
on the configured day of month; if that occurrence is over at the
reference, the start rolls to the same day of the next UTC month. -/
def calculateMonthlyEvent (baseDate : String) (durationDays referenceDate : Int) : Window :=
  let dayOfMonth := parseIntDecimal baseDate
  let currentYear := getUTCFullYear referenceDate
  let currentMonth := getUTCMonth referenceDate
  let currentDay := getUTCDate referenceDate
  let potentialStart := dateUTC currentYear currentMonth dayOfMonth 8 0 0 0
  let startDate :=
    if currentDay < dayOfMonth then
      potentialStart
    else
      let potentialEnd := addDays potentialStart durationDays
      if potentialStart ≤ referenceDate ∧ referenceDate < potentialEnd then
        potentialStart
      else
        dateUTC currentYear (currentMonth + 1) dayOfMonth 8 0 0 0
  { start := startDate, stop := addDays startDate durationDays }

/-- calculateWeeklyEvent from the source.  The previous-week window is
computed unconditionally here; the source only builds it inside the guard,
which is equivalent since the computation is pure.  The JS % operator
truncates, but its left operand (currentDay - targetDay + 7) is
nonnegative, so it agrees with the Lean % on Int. -/
def calculateWeeklyEvent (baseDate : String) (durationDays referenceDate : Int) :
    Except String Window :=
  match dayOfWeekIndex baseDate with
  | none => .error ("Invalid day of week: " ++ baseDate)
  | some targetDay =>
    let currentDay := getUTCDay referenceDate
    let daysSinceTarget := (currentDay - targetDay + 7) % 7
    let lastWeekStart := atHour8 (addDays referenceDate (-daysSinceTarget))
    let lastWeekEnd := addDays lastWeekStart durationDays
    if 0 < daysSinceTarget ∧ daysSinceTarget ≤ durationDays
        ∧ lastWeekStart ≤ referenceDate ∧ referenceDate < lastWeekEnd then
      .ok { start := lastWeekStart, stop := lastWeekEnd }
    else
      let daysUntilTarget0 := targetDay - currentDay
      let daysUntilTarget :=
        if daysUntilTarget0 ≤ 0 then daysUntilTarget0 + 7 else daysUntilTarget0
      let startDate := atHour8 (addDays referenceDate daysUntilTarget)
      .ok { start := startDate, stop := addDays startDate durationDays }

/-- The previous-week candidate window of calculateWeeklyEvent, extracted:
start at 08:00 UTC daysSinceTarget days before the reference day. -/
def weeklyPreviousWindow (targetDay durationDays referenceDate : Int) : Window :=
  let daysSinceTarget := (getUTCDay referenceDate - targetDay + 7) % 7
  let s := atHour8 (addDays referenceDate (-daysSinceTarget))
  { start := s, stop := addDays s durationDays }

/-- The forward candidate window of calculateWeeklyEvent, extracted: start
at 08:00 UTC daysUntilTarget days after the reference day, with the target
projected strictly into the future. -/
def weeklyNextWindow (targetDay durationDays referenceDate : Int) : Window :=
  let daysUntilTarget0 := targetDay - getUTCDay referenceDate
  let daysUntilTarget :=
    if daysUntilTarget0 ≤ 0 then daysUntilTarget0 + 7 else daysUntilTarget0
  let s := atHour8 (addDays referenceDate daysUntilTarget)
  { start := s, stop := addDays s durationDays }

/-- calculateRepeatingEventDates from the source; the thrown errors become
the error branch of Except. -/
def calculateRepeatingEventDates (event : RepeatingEvent) (referenceDate : Int) :
    Except String Window :=
  if event.modifier = "monthly" then
    .ok (calculateMonthlyEvent event.baseDate event.durationDays referenceDate)
  else if event.modifier = "weekly" then
    calculateWeeklyEvent event.baseDate event.durationDays referenceDate
  else
    .error ("Unknown modifier: " ++ event.modifier)

/-- calculateCountdown from the source.  Math.floor and the JS % act on
nonnegative operands in the positive branch, so they are / and % on Int. -/
def calculateCountdown (endDate currentDate : Int) : Countdown :=
  let timeRemaining := endDate - currentDate
  if timeRemaining ≤ 0 then
    { days := 0, hours := 0, minutes := 0, seconds := 0, totalMs := 0 }
  else
    { days := timeRemaining / 86400000
      hours := (timeRemaining % 86400000) / 3600000
      minutes := (timeRemaining % 3600000) / 60000
      seconds := (timeRemaining % 60000) / 1000
      totalMs := timeRemaining }

/-- formatCountdown from the source. -/
def formatCountdown (c : Countdown) : String :=
  if 0 < c.days then
    toString c.days ++ "d " ++ toString c.hours ++ "h"
  else if 0 < c.hours then
    toString c.hours ++ "h " ++ toString c.minutes ++ "m"
  else if 0 < c.minutes then
    toString c.minutes ++ "m " ++ toString c.seconds ++ "s"
  else
    toString c.seconds ++ "s"

/-! The batch query surface.  Each query iterates the two configuration
arrays with forEach, pushing zero or one view objects per definition (the
weekly calendar branch pushes per occurrence); a per-definition forEach
body therefore becomes a function returning a short list, and the whole
pass a flatMap.  The try/catch around each body maps an error from the
window computation to the empty contribution. -/

/-- Contribution of one repeating event to getActiveEvents. -/
def repeatingActiveEntry (currentDate : Int) (event : RepeatingEvent) :
    List ActiveEvent :=
  if event.active = some false then []
  else
    match calculateRepeatingEventDates event currentDate with
    | .error _ => []
    | .ok w =>
      if w.start ≤ currentDate ∧ currentDate < w.stop then
        [{ title := event.title, icon := event.icon, image := event.image,
           description := event.description.getD "",
           type := "repeating", modifier := some event.modifier,
           start := w.start, stop := w.stop,
           countdown := calculateCountdown w.stop currentDate,
           countdownText := formatCountdown (calculateCountdown w.stop currentDate) }]
      else []

/-- Contribution of one one-time event to getActiveEvents. -/
def oneTimeActiveEntry (currentDate : Int) (event : OneTimeEvent) :
    List ActiveEvent :=
  if event.active = some false then []
  else if event.start ≤ currentDate ∧ currentDate < event.stop then
    [{ title := event.title, icon := event.icon, image := event.image,
       description := event.description.getD "",
       type := "one-time", modifier := none,
       start := event.start, stop := event.stop,
       countdown := calculateCountdown event.stop currentDate,
       countdownText := formatCountdown (calculateCountdown event.stop currentDate) }]
  else []

/-- Stable insertion of an element into an already sorted list: the new
element, which came earlier in the original list, stays before elements it
compares equal to. -/
def insertSorted {α : Type} (le : α → α → Bool) (x : α) : List α → List α
  | [] => [x]
  | b :: l => if le x b then x :: b :: l else b :: insertSorted le x l

/-- Stable ascending sort.  The JS Array.prototype.sort with a two-value
comparator is required by ES2019 to be a stable ascending sort; a stable
sort of a list under a total preorder is unique, so this structurally
recursive insertion sort is extensionally that sort. -/
def stableSort {α : Type} (le : α → α → Bool) : List α → List α
  | [] => []
  | x :: xs => insertSorted le x (stableSort le xs)

/-- Final sort of getActiveEvents: ascending by countdown.totalMs, stable
(the JS comparator a.countdown.totalMs - b.countdown.totalMs). -/
def sortActive (l : List ActiveEvent) : List ActiveEvent :=
  stableSort (fun a b => decide (a.countdown.totalMs ≤ b.countdown.totalMs)) l

/-- Recomputation path of getActiveEvents (the forEach passes and sort). -/
def computeActiveEvents (config : EventsConfig) (currentDate : Int) :
    List ActiveEvent :=
  sortActive
    (config.repeating_events.flatMap (repeatingActiveEntry currentDate)
      ++ config.one_time_events.flatMap (oneTimeActiveEntry currentDate))

/-- getActiveEvents from the source, with the mutable fields of the
singleton passed and returned explicitly.  The truthiness test on
this.lastUpdateTime fails for the value 0 (a falsy number in JS), hence
the explicit lastUpdate 0 check. -/
def getActiveEvents (st : ManagerState) (currentDate : Int) (forceRefresh : Bool) :
    List ActiveEvent × ManagerState :=
  match st.eventsConfig with
  | none => ([], st)
  | some config =>
    match forceRefresh, st.cachedActiveEvents, st.lastUpdateTime with
    | false, some cached, some lastUpdate =>
      if lastUpdate ≠ 0 ∧ currentDate - lastUpdate < 1000 then
        (cached, st)
      else
        let result := computeActiveEvents config currentDate
        (result,
         { st with cachedActiveEvents := some result,
                   lastUpdateTime := some currentDate })
    | _, _, _ =>
      let result := computeActiveEvents config currentDate
      (result,
       { st with cachedActiveEvents := some result,
                 lastUpdateTime := some currentDate })

/-- Contribution of one repeating event to getUpcomingEvents.  The source
only tests start < endDate here (no end > currentDate test, unlike the
one-time branch below). -/
def repeatingUpcomingEntry (currentDate endDate : Int) (event : RepeatingEvent) :
    List UpcomingEvent :=
  if event.active = some false then []
  else
    match calculateRepeatingEventDates event currentDate with
    | .error _ => []
    | .ok w =>
      if w.start < endDate then
        [{ title := event.title, icon := event.icon, image := event.image,
           description := event.description.getD "",
           type := "repeating", modifier := some event.modifier,
           start := w.start, stop := w.stop,
           isActive := decide (w.start ≤ currentDate ∧ currentDate < w.stop) }]
      else []

/-- Contribution of one one-time event to getUpcomingEvents. -/
def oneTimeUpcomingEntry (currentDate endDate : Int) (event : OneTimeEvent) :
    List UpcomingEvent :=
  if event.active = some false then []
  else if event.start < endDate ∧ currentDate < event.stop then
    [{ title := event.title, icon := event.icon, image := event.image,
       description := event.description.getD "",
       type := "one-time", modifier := none,
       start := event.start, stop := event.stop,
       isActive := decide (event.start ≤ currentDate ∧ currentDate < event.stop) }]
  else []

/-- Final sort of getUpcomingEvents: ascending by start, stable. -/
def sortUpcoming (l : List UpcomingEvent) : List UpcomingEvent :=
  stableSort (fun a b => decide (a.start ≤ b.start)) l

/-- Body of getUpcomingEvents once the configuration is present.  The
source computes endDate with setDate, local-time day arithmetic; the
module fixes the host to UTC, where it adds exactly daysAhead days. -/
def computeUpcomingEvents (config : EventsConfig) (currentDate daysAhead : Int) :
    List UpcomingEvent :=
  let endDate := addDays currentDate daysAhead
  sortUpcoming
    (config.repeating_events.flatMap (repeatingUpcomingEntry currentDate endDate)
      ++ config.one_time_events.flatMap (oneTimeUpcomingEntry currentDate endDate))

/-- getUpcomingEvents from the source. -/
def getUpcomingEvents (st : ManagerState) (currentDate daysAhead : Int) :
    List UpcomingEvent :=
  match st.eventsConfig with
  | none => []
  | some config => computeUpcomingEvents config currentDate daysAhead

/-- Start marker of a calendar window. -/
def calendarStartEntry (event : RepeatingEvent) (w : Window) : CalendarEntry :=
  { date := getUTCDate w.start, fullDate := w.start,
    title := event.title, icon := event.icon, type := "repeating",
    isStart := true, isEnd := false }

/-- End marker of a calendar window. -/
def calendarEndEntry (event : RepeatingEvent) (w : Window) : CalendarEntry :=
  { date := getUTCDate w.stop, fullDate := w.stop,
    title := event.title, icon := event.icon, type := "repeating",
    isStart := false, isEnd := true }

/-- Markers the weekly calendar loop pushes for one computed window. -/
def weeklyWindowEntries (event : RepeatingEvent) (monthStart monthEnd : Int)
    (w : Window) : List CalendarEntry :=
  if monthStart < w.stop ∧ w.start ≤ monthEnd then
    (if monthStart ≤ w.start ∧ w.start ≤ monthEnd then [calendarStartEntry event w] else [])
      ++ (if monthStart ≤ w.stop ∧ w.stop ≤ monthEnd then [calendarEndEntry event w] else [])
  else []

/-- The while loop of the weekly calendar branch: searchDate walks from
monthStart in 7-day steps while searchDate is at most monthEnd, computing a
window at each step.  The loop runs at most 5 times (a month spans at most
31 days), so a fuel of 6 makes the recursion structural without ever
truncating it; getCalendarForMonth below passes that fuel.  A thrown error
aborts the whole per-event block; since calculateWeeklyEvent fails only on
the baseDate, independently of the reference, an error already occurs at
the first step, before anything was pushed, so the error branch carries no
partial list. -/
def weeklyCalendarSearch (event : RepeatingEvent) (monthStart monthEnd : Int) :
    Nat → Int → Except String (List CalendarEntry)
  | 0, _ => .ok []
  | fuel + 1, searchDate =>
    if searchDate ≤ monthEnd then
      match calculateRepeatingEventDates event searchDate with
      | .error e => .error e
      | .ok w =>
        match weeklyCalendarSearch event monthStart monthEnd fuel
            (searchDate + 7 * 86400000) with
        | .error e => .error e
        | .ok rest => .ok (weeklyWindowEntries event monthStart monthEnd w ++ rest)
    else .ok []

/-- Contribution of one repeating event to getCalendarForMonth.  Monthly
events are computed once against monthStart; note the source pushes their
start marker checking only monthStart ≤ start, and their end marker
checking only stop ≤ monthEnd.  Modifiers other than monthly and weekly
fall through both branches and contribute nothing. -/
def repeatingCalendarEntry (monthStart monthEnd : Int) (event : RepeatingEvent) :
    List CalendarEntry :=
  if event.active = some false then []
  else if event.modifier = "monthly" then
    match calculateRepeatingEventDates event monthStart with
    | .error _ => []
    | .ok w =>
      if monthStart < w.stop ∧ w.start ≤ monthEnd then
        (if monthStart ≤ w.start then [calendarStartEntry event w] else [])
          ++ (if w.stop ≤ monthEnd then [calendarEndEntry event w] else [])
      else []
  else if event.modifier = "weekly" then
    match weeklyCalendarSearch event monthStart monthEnd 6 monthStart with
    | .error _ => []
    | .ok entries => entries
  else []

/-- Contribution of one one-time event to getCalendarForMonth. -/
def oneTimeCalendarEntry (monthStart monthEnd : Int) (event : OneTimeEvent) :
    List CalendarEntry :=
  if event.active = some false then []
  else if monthStart < event.stop ∧ event.start ≤ monthEnd then
    (if monthStart ≤ event.start ∧ event.start ≤ monthEnd then
      [{ date := getUTCDate event.start, fullDate := event.start,
         title := event.title, icon := event.icon, type := "one-time",
         isStart := true, isEnd := false }] else [])
      ++ (if monthStart ≤ event.stop ∧ event.stop ≤ monthEnd then
        [{ date := getUTCDate event.stop, fullDate := event.stop,
           title := event.title, icon := event.icon, type := "one-time",
           isStart := false, isEnd := true }] else [])
  else []

/-- getCalendarForMonth from the source; month is 0-based, monthStart is
the first of the month at 00:00:00 UTC and monthEnd the last day (day 0 of
the following month) at 23:59:59 UTC. -/
def getCalendarForMonth (st : ManagerState) (year month : Int) :
    List CalendarEntry :=
  match st.eventsConfig with
  | none => []
  | some config =>
    let monthStart := dateUTC year month 1 0 0 0 0
    let monthEnd := dateUTC year (month + 1) 0 23 59 59 0
    config.repeating_events.flatMap (repeatingCalendarEntry monthStart monthEnd)
      ++ config.one_time_events.flatMap (oneTimeCalendarEntry monthStart monthEnd)

/-- isEventActive from the source: membership by title in the active list,
with the default forceRefresh = false. -/
def isEventActive (st : ManagerState) (eventTitle : String) (currentDate : Int) :
    Bool :=
  ((getActiveEvents st currentDate false).1).any (fun e => e.title == eventTitle)

/-! Concrete fixtures used by the scenario theorems below.  The instants
are milliseconds since the epoch: 2026-01-01T00:00Z is day 20454, that is
1767225600000 ms, and 2026-02-01T00:00Z is day 20485, 1769904000000 ms. -/

/-- Monthly Gold Pass definition of the spec scenario. -/
def goldPassEvent : RepeatingEvent :=
  { title := "Gold Pass", icon := "gp", image := none, description := none,
    modifier := "monthly", baseDate := "01", durationDays := 31, active := none }

/-- Fresh manager state holding only the Gold Pass definition. -/
def goldPassState : ManagerState :=
  { eventsConfig := some { repeating_events := [goldPassEvent], one_time_events := [] },
    cachedActiveEvents := none, lastUpdateTime := none }

/-- Weekly Raid Weekend definition of the spec scenario (Friday, 3 days). -/
def raidEvent : RepeatingEvent :=
  { title := "Raid Weekend", icon := "rw", image := none, description := none,
    modifier := "weekly", baseDate := "Friday", durationDays := 3, active := none }

/-- Fresh manager state holding only the Raid Weekend definition. -/
def raidState : ManagerState :=
  { eventsConfig := some { repeating_events := [raidEvent], one_time_events := [] },
    cachedActiveEvents := none, lastUpdateTime := none }

/-- Weekly Sunday definition used by the calendar scenario: February 2026
starts on a Sunday, so every calendar search step lands on a Sunday. -/
def sundayEvent : RepeatingEvent :=
  { title := "Sunday Event", icon := "se", image := none, description := none,
    modifier := "weekly", baseDate := "Sunday", durationDays := 2, active := none }

/-- Fresh manager state holding only the Sunday definition. -/
def sundayState : ManagerState :=
  { eventsConfig := some { repeating_events := [sundayEvent], one_time_events := [] },
    cachedActiveEvents := none, lastUpdateTime := none }

/-- Manager state with no configuration loaded. -/
def emptyState : ManagerState :=
  { eventsConfig := none, cachedActiveEvents := none, lastUpdateTime := none }

/-- A view object standing for a previously cached query result. -/
def staleEntry : ActiveEvent :=
  { title := "Stale", icon := "", image := none, description := "",
    type := "one-time", modifier := none, start := 0, stop := 1,
    countdown := { days := 0, hours := 0, minutes := 0, seconds := 0, totalMs := 0 },
    countdownText := "0s" }

/-- Manager state whose cache was computed against the instant 10000 and
whose configuration is empty (so recomputation would yield []). -/
def staleState : ManagerState :=
  { eventsConfig := some { repeating_events := [], one_time_events := [] },
    cachedActiveEvents := some [staleEntry], lastUpdateTime := some 10000 }

instance : DecidableEq (Except String Window) := fun a b =>
  match a, b with
  | .ok w, .ok w2 => decidable_of_iff (w = w2) (by simp)
  | .error e, .error e2 => decidable_of_iff (e = e2) (by simp)
  | .ok _, .error _ => isFalse (by simp)
  | .error _, .ok _ => isFalse (by simp)

/-! Claim theorems. -/

/-- C7: calculateCountdown(end, reference) returns all fields zero
(including totalMs) whenever end is at most the reference; otherwise it
floor-decomposes the end - reference milliseconds so that
days*86400000 + hours*3600000 + minutes*60000 + seconds*1000 lies at most
totalMs, which in turn lies below that sum plus 1000. -/
theorem countdown_decomposition (endDate currentDate : Int) :
    (endDate ≤ currentDate →
      calculateCountdown endDate currentDate =
        { days := 0, hours := 0, minutes := 0, seconds := 0, totalMs := 0 }) ∧
    (currentDate < endDate →
      (calculateCountdown endDate currentDate).totalMs = endDate - currentDate ∧
      (calculateCountdown endDate currentDate).days * 86400000
          + (calculateCountdown endDate currentDate).hours * 3600000
          + (calculateCountdown endDate currentDate).minutes * 60000
          + (calculateCountdown endDate currentDate).seconds * 1000
        ≤ (calculateCountdown endDate currentDate).totalMs ∧
      (calculateCountdown endDate currentDate).totalMs
        < (calculateCountdown endDate currentDate).days * 86400000
          + (calculateCountdown endDate currentDate).hours * 3600000
          + (calculateCountdown endDate currentDate).minutes * 60000
          + (calculateCountdown endDate currentDate).seconds * 1000 + 1000) := by
  unfold calculateCountdown
  constructor
  · intro h
    rw [if_pos (by omega)]
  · intro h
    rw [if_neg (by omega)]
    refine ⟨rfl, ?_, ?_⟩ <;> simp only <;> omega

/-- Witness for countdown_decomposition at end 90061001, reference 0
(1 day, 1 hour, 1 minute, 1 second and 1 ms remaining) and at an expired
pair. -/
theorem countdown_decomposition_witness :
    calculateCountdown 3 5 =
      { days := 0, hours := 0, minutes := 0, seconds := 0, totalMs := 0 } ∧
    (calculateCountdown 90061001 0).days * 86400000
        + (calculateCountdown 90061001 0).hours * 3600000
        + (calculateCountdown 90061001 0).minutes * 60000
        + (calculateCountdown 90061001 0).seconds * 1000
      ≤ (calculateCountdown 90061001 0).totalMs :=
  ⟨(countdown_decomposition 3 5).1 (by decide),
   ((countdown_decomposition 90061001 0).2 (by decide)).2.1⟩

/-- C10: with no configuration loaded (eventsConfig none), getActiveEvents
returns an empty list and leaves the state (hence the cache fields)
unchanged, and getUpcomingEvents and getCalendarForMonth return empty
lists. -/
theorem noConfig_empty (st : ManagerState) (h : st.eventsConfig = none)
    (currentDate daysAhead year month : Int) (forceRefresh : Bool) :
    getActiveEvents st currentDate forceRefresh = ([], st) ∧
    getUpcomingEvents st currentDate daysAhead = [] ∧
    getCalendarForMonth st year month = [] := by
  unfold getActiveEvents getUpcomingEvents getCalendarForMonth
  rw [h]
  exact ⟨rfl, rfl, rfl⟩

/-- Witness for noConfig_empty on the empty state. -/
theorem noConfig_empty_witness :
    getActiveEvents emptyState 0 false = ([], emptyState) ∧
    getUpcomingEvents emptyState 0 30 = [] ∧
    getCalendarForMonth emptyState 2026 0 = [] :=
  noConfig_empty emptyState rfl 0 30 2026 0 false

/-- C1 counterexample: the claimed scenario conjunction is false, because
at 2026-02-01T09:00:00Z (1769936400000) the Gold Pass is active again in
the freshly rolled window, not inactive.  The first two scenario instants
are 2026-01-01T07:00Z (1767250800000) and 2026-01-01T09:00Z
(1767258000000); the claimed January window is [1767254400000,
1769932800000). -/
theorem goldPass_scenario_as_claimed_false :
    ¬ (isEventActive goldPassState "Gold Pass" 1767250800000 = false ∧
       isEventActive goldPassState "Gold Pass" 1767258000000 = true ∧
       calculateMonthlyEvent "01" 31 1767258000000 =
         { start := 1767254400000, stop := 1769932800000 } ∧
       isEventActive goldPassState "Gold Pass" 1769936400000 = false) := by
  decide

/-- C1 amended: the first two scenario instants behave as claimed, and at
2026-02-01T09:00:00Z the event is active again in the next window
[2026-02-01T08:00Z, 2026-03-04T08:00Z), which begins at the very instant
the January window ends. -/
theorem goldPass_scenario_amended :
    isEventActive goldPassState "Gold Pass" 1767250800000 = false ∧
    isEventActive goldPassState "Gold Pass" 1767258000000 = true ∧
    calculateMonthlyEvent "01" 31 1767258000000 =
      { start := 1767254400000, stop := 1769932800000 } ∧
    isEventActive goldPassState "Gold Pass" 1769936400000 = true ∧
    calculateMonthlyEvent "01" 31 1769936400000 =
      { start := 1769932800000, stop := 1772611200000 } := by
  decide

/-- C5: getCalendarForMonth misses weekly occurrences.  February 2026
(year 2026, month index 1) starts on a Sunday; for the weekly Sunday
definition the occurrence [2026-02-01T08:00Z, 2026-02-03T08:00Z) =
[1769932800000, 1770105600000) has both start and end inside the month
(month range 1769904000000 to 1772323199000), and calculateWeeklyEvent
confirms it is a genuine occurrence (computed at Monday 2026-02-02T12:00Z
= 1770033600000), yet the calendar emits markers only for the
February 8, 15 and 22 occurrences and none at all for the February 1
one. -/
theorem calendar_misses_weekly_occurrence :
    calculateWeeklyEvent "Sunday" 2 1770033600000 =
      .ok { start := 1769932800000, stop := 1770105600000 } ∧
    (getCalendarForMonth sundayState 2026 1).map
        (fun e => (e.fullDate, e.isStart, e.isEnd)) =
      [(1770537600000, true, false), (1770710400000, false, true),
       (1771142400000, true, false), (1771315200000, false, true),
       (1771747200000, true, false), (1771920000000, false, true)] ∧
    (getCalendarForMonth sundayState 2026 1).all
        (fun e => !(e.fullDate == 1769932800000)) = true := by
  decide

/-- C3 counterexample: the cache-age test is signed, not an absolute
distance.  With the cache computed against the instant 10000, a call at
reference 0 is ten seconds away from the cached instant, yet the code
computes 0 - 10000 = -10000 < 1000 and returns the stale cached list with
the state unchanged, even though recomputing over the (empty)
configuration would return []. -/
theorem cache_stale_for_past_reference :
    getActiveEvents staleState 0 false = ([staleEntry], staleState) ∧
    computeActiveEvents { repeating_events := [], one_time_events := [] } 0 = [] := by
  decide

/-- C3 amended: with forceRefresh false, a cached list present and a
nonzero cached instant, the call returns the identical cached list without
touching the state whenever currentDate - cachedInstant < 1000 ms (in
particular for every reference within 1000ms after the cached instant, but
also for any reference before it, arbitrarily far in the past), and it
recomputes and replaces the cache exactly when
currentDate - cachedInstant is at least 1000 ms. -/
theorem cache_policy_amended (config : EventsConfig)
    (cached : List ActiveEvent) (lastUpdate currentDate : Int)
    (hnz : lastUpdate ≠ 0) :
    (currentDate - lastUpdate < 1000 →
      getActiveEvents
          { eventsConfig := some config, cachedActiveEvents := some cached,
            lastUpdateTime := some lastUpdate } currentDate false =
        (cached,
         { eventsConfig := some config, cachedActiveEvents := some cached,
           lastUpdateTime := some lastUpdate })) ∧
    (1000 ≤ currentDate - lastUpdate →
      getActiveEvents
          { eventsConfig := some config, cachedActiveEvents := some cached,
            lastUpdateTime := some lastUpdate } currentDate false =
        (computeActiveEvents config currentDate,
         { eventsConfig := some config,
           cachedActiveEvents := some (computeActiveEvents config currentDate),
           lastUpdateTime := some currentDate })) := by
  constructor
  · intro h
    show (if lastUpdate ≠ 0 ∧ currentDate - lastUpdate < 1000 then _ else _) = _
    rw [if_pos ⟨hnz, h⟩]
  · intro h
    show (if lastUpdate ≠ 0 ∧ currentDate - lastUpdate < 1000 then _ else _) = _
    rw [if_neg (by omega : ¬ (lastUpdate ≠ 0 ∧ currentDate - lastUpdate < 1000))]

/-- Witness for cache_policy_amended: a call 500ms after the cached
instant returns the cached list unchanged; a call 1500ms after recomputes
(here to the empty list) and replaces the cache. -/
theorem cache_policy_amended_witness :
    getActiveEvents staleState 10500 false = ([staleEntry], staleState) ∧
    getActiveEvents staleState 11500 false =
      ([], { staleState with cachedActiveEvents := some [],
                             lastUpdateTime := some 11500 }) := by
  constructor
  · exact (cache_policy_amended
      { repeating_events := [], one_time_events := [] }
      [staleEntry] 10000 10500 (by decide)).1 (by decide)
  · exact ((cache_policy_amended
      { repeating_events := [], one_time_events := [] }
      [staleEntry] 10000 11500 (by decide)).2 (by decide)).trans (by decide)

/-- C6 counterexample: activity is recomputed at the queried instant, and
for a weekly definition the instant window.start itself lies on the target
weekday, where calculateWeeklyEvent jumps to next week; so the Raid
Weekend (Friday, 3 days), whose window computed at 2025-12-31T12:00Z
(1767182400000) is [2026-01-02T08:00Z, 2026-01-05T08:00Z) =
[1767340800000, 1767600000000), is judged NOT active at the reference
1767340800000 equal to that window start, refuting the claim that every
event is judged active at window.start. -/
theorem halfopen_start_fails_for_weekly :
    calculateRepeatingEventDates raidEvent 1767182400000 =
      .ok { start := 1767340800000, stop := 1767600000000 } ∧
    isEventActive raidState "Raid Weekend" 1767340800000 = false := by
  decide

/-- C6 amended: the activity test applied by every query is the half-open
membership window.start ≤ reference < window.end evaluated on the window
recomputed at the queried reference.  For one-time definitions the window
never moves, so the boundary property holds as claimed: the event is
judged active at a reference equal to window.start and judged inactive at
a reference equal to window.end.  For recurring definitions the window is
recomputed at the boundary instant and the property can fail (see the
weekly counterexample). -/
theorem halfopen_boundaries_amended (e : OneTimeEvent)
    (hact : e.active ≠ some false) (hlt : e.start < e.stop) :
    isEventActive
      { eventsConfig := some { repeating_events := [], one_time_events := [e] },
        cachedActiveEvents := none, lastUpdateTime := none } e.title e.start = true ∧
    isEventActive
      { eventsConfig := some { repeating_events := [], one_time_events := [e] },
        cachedActiveEvents := none, lastUpdateTime := none } e.title e.stop = false := by
  constructor
  · show (computeActiveEvents
      { repeating_events := [], one_time_events := [e] } e.start).any _ = true
    simp [computeActiveEvents, oneTimeActiveEntry, hact, hlt,
      sortActive, stableSort, insertSorted]
  · show (computeActiveEvents
      { repeating_events := [], one_time_events := [e] } e.stop).any _ = false
    simp [computeActiveEvents, oneTimeActiveEntry, hact,
      sortActive, stableSort, insertSorted]

/-- Witness for halfopen_boundaries_amended on a concrete one-time event
spanning [100, 200). -/
theorem halfopen_boundaries_amended_witness :
    isEventActive
      { eventsConfig := some
          { repeating_events := [],
            one_time_events :=
              [{ title := "OneOff", icon := "", image := none, description := none,
                 start := 100, stop := 200, active := none }] },
        cachedActiveEvents := none, lastUpdateTime := none } "OneOff" 100 = true ∧
    isEventActive
      { eventsConfig := some
          { repeating_events := [],
            one_time_events :=
              [{ title := "OneOff", icon := "", image := none, description := none,
                 start := 100, stop := 200, active := none }] },
        cachedActiveEvents := none, lastUpdateTime := none } "OneOff" 200 = false :=
  halfopen_boundaries_amended
    { title := "OneOff", icon := "", image := none, description := none,
      start := 100, stop := 200, active := none } (by decide) (by decide)

/-- A recognized day name has an index between 0 and 6. -/
theorem dayOfWeekIndex_bounds (bd : String) (i : Int)
    (h : dayOfWeekIndex bd = some i) : 0 ≤ i ∧ i ≤ 6 := by
  simp only [dayOfWeekIndex, daysOfWeek, List.findIdx?_cons, List.findIdx?_nil] at h
  split_ifs at h <;> (try simp_all) <;> omega

/-- C4 counterexample: at the Friday reference 2026-01-02T12:00Z
(1767355200000), for the weekly Friday definition with durationDays 3,
exactly one of the two candidate windows contains the reference - the
previous-week window, here [2026-01-02T08:00Z, 2026-01-05T08:00Z), since
daysSinceTarget is 0 - yet calculateWeeklyEvent returns the other one, the
next forward window starting 2026-01-09T08:00Z, which does not contain the
reference.  This refutes the claim that calculateWeeklyEvent returns the
containing window. -/
theorem weekly_boundary_claim_false :
    dayOfWeekIndex "Friday" = some 5 ∧
    ((weeklyPreviousWindow 5 3 1767355200000).start ≤ 1767355200000 ∧
      1767355200000 < (weeklyPreviousWindow 5 3 1767355200000).stop) ∧
    ¬ ((weeklyNextWindow 5 3 1767355200000).start ≤ 1767355200000 ∧
      1767355200000 < (weeklyNextWindow 5 3 1767355200000).stop) ∧
    calculateWeeklyEvent "Friday" 3 1767355200000 =
      .ok (weeklyNextWindow 5 3 1767355200000) ∧
    weeklyNextWindow 5 3 1767355200000 ≠ weeklyPreviousWindow 5 3 1767355200000 := by
  decide

/-- C4 amended: for every weekly definition and every reference instant
whose UTC day of week differs from the target day, the next forward window
never contains the reference (so at most one of the two candidate windows
does), and calculateWeeklyEvent returns the previous-week window exactly
when that window contains the reference, the next forward window
otherwise.  On the target day itself the previous-week window may contain
the reference while calculateWeeklyEvent still returns the next forward
window (see the counterexample). -/
theorem weekly_window_selection_amended (bd : String) (targetDay : Int)
    (hidx : dayOfWeekIndex bd = some targetDay)
    (durationDays referenceDate : Int)
    (hwd : getUTCDay referenceDate ≠ targetDay) :
    (¬ ((weeklyNextWindow targetDay durationDays referenceDate).start ≤ referenceDate ∧
        referenceDate < (weeklyNextWindow targetDay durationDays referenceDate).stop)) ∧
    (((weeklyPreviousWindow targetDay durationDays referenceDate).start ≤ referenceDate ∧
        referenceDate < (weeklyPreviousWindow targetDay durationDays referenceDate).stop) →
      calculateWeeklyEvent bd durationDays referenceDate =
        .ok (weeklyPreviousWindow targetDay durationDays referenceDate)) ∧
    ((¬ ((weeklyPreviousWindow targetDay durationDays referenceDate).start ≤ referenceDate ∧
        referenceDate < (weeklyPreviousWindow targetDay durationDays referenceDate).stop)) →
      calculateWeeklyEvent bd durationDays referenceDate =
        .ok (weeklyNextWindow targetDay durationDays referenceDate)) := by
  obtain ⟨ht0, ht6⟩ := dayOfWeekIndex_bounds bd targetDay hidx
  have hcw : calculateWeeklyEvent bd durationDays referenceDate =
      (if 0 < (getUTCDay referenceDate - targetDay + 7) % 7 ∧
          (getUTCDay referenceDate - targetDay + 7) % 7 ≤ durationDays ∧
          (weeklyPreviousWindow targetDay durationDays referenceDate).start ≤ referenceDate ∧
          referenceDate < (weeklyPreviousWindow targetDay durationDays referenceDate).stop
        then .ok (weeklyPreviousWindow targetDay durationDays referenceDate)
        else .ok (weeklyNextWindow targetDay durationDays referenceDate)) := by
    unfold calculateWeeklyEvent
    rw [hidx]
    rfl
  simp only [weeklyPreviousWindow, weeklyNextWindow, atHour8, addDays, epochDay,
    getUTCDay] at hcw hwd ⊢
  refine ⟨by omega, ?_, ?_⟩
  · intro hcont
    rw [hcw, if_pos ⟨by omega, by omega, hcont.1, hcont.2⟩]
  · intro hcont
    rw [hcw, if_neg (fun hall => hcont ⟨hall.2.2.1, hall.2.2.2⟩)]

/-- Witness for weekly_window_selection_amended: at the Sunday reference
2026-01-04T12:00Z the Friday 3-day window is still running, and
calculateWeeklyEvent returns the containing previous-week window. -/
theorem weekly_window_selection_amended_witness :
    calculateWeeklyEvent "Friday" 3 1767528000000 =
      .ok (weeklyPreviousWindow 5 3 1767528000000) :=
  (weekly_window_selection_amended "Friday" 5 (by decide) 3 1767528000000
    (by decide)).2.1 (by decide)

/-- A base date outside the days-of-week table has no index (the indexOf
result is -1 in the source). -/
theorem dayOfWeekIndex_eq_none_of_not_mem (bd : String) (h : bd ∉ daysOfWeek) :
    dayOfWeekIndex bd = none := by
  simp only [daysOfWeek, List.mem_cons, List.not_mem_nil, or_false, not_or] at h
  obtain ⟨h1, h2, h3, h4, h5, h6, h7⟩ := h
  simp [dayOfWeekIndex, daysOfWeek, List.findIdx?_cons, List.findIdx?_nil,
    beq_iff_eq, Ne.symm h1, Ne.symm h2, Ne.symm h3, Ne.symm h4, Ne.symm h5,
    Ne.symm h6, Ne.symm h7]

/-- A malformed repeating definition (unknown modifier, or weekly with an
unrecognized day name) makes the window computation raise the descriptive
error of the source. -/
theorem calcRED_error_of_bad (e : RepeatingEvent) (referenceDate : Int)
    (hbad : (e.modifier ≠ "monthly" ∧ e.modifier ≠ "weekly") ∨
            (e.modifier = "weekly" ∧ e.baseDate ∉ daysOfWeek)) :
    calculateRepeatingEventDates e referenceDate =
      .error (if e.modifier = "weekly" then "Invalid day of week: " ++ e.baseDate
              else "Unknown modifier: " ++ e.modifier) := by
  rcases hbad with ⟨h1, h2⟩ | ⟨h1, h2⟩
  · simp [calculateRepeatingEventDates, h1, h2]
  · have hn := dayOfWeekIndex_eq_none_of_not_mem e.baseDate h2
    simp [calculateRepeatingEventDates, h1, calculateWeeklyEvent, hn]

/-- If the window computation of a definition fails at every reference,
the weekly calendar loop returns an error or an empty list, whatever the
fuel and search date. -/
theorem weeklyCalendarSearch_of_error (e : RepeatingEvent)
    (herr : ∀ r : Int, ∃ msg, calculateRepeatingEventDates e r = .error msg)
    (monthStart monthEnd : Int) : ∀ (fuel : Nat) (searchDate : Int),
    weeklyCalendarSearch e monthStart monthEnd fuel searchDate = .ok [] ∨
    ∃ msg, weeklyCalendarSearch e monthStart monthEnd fuel searchDate = .error msg := by
  intro fuel
  induction fuel with
  | zero =>
    intro searchDate
    left
    rfl
  | succ n ih =>
    intro searchDate
    unfold weeklyCalendarSearch
    by_cases h : searchDate ≤ monthEnd
    · obtain ⟨msg, hm⟩ := herr searchDate
      rw [if_pos h, hm]
      exact Or.inr ⟨msg, rfl⟩
    · rw [if_neg h]
      left
      rfl

/-- C8: computing a window for a definition whose modifier is neither
monthly nor weekly, or whose weekly baseDate is not one of the seven
recognized day names, raises the descriptive error of the source; and each
batch query (getActiveEvents, getUpcomingEvents, getCalendarForMonth)
skips exactly that definition, returning the results computed from every
other definition unchanged. -/
theorem bad_definition_skipped (e : RepeatingEvent)
    (hbad : (e.modifier ≠ "monthly" ∧ e.modifier ≠ "weekly") ∨
            (e.modifier = "weekly" ∧ e.baseDate ∉ daysOfWeek))
    (r1 r2 : List RepeatingEvent) (ots : List OneTimeEvent)
    (referenceDate currentDate daysAhead year month : Int) (forceRefresh : Bool) :
    calculateRepeatingEventDates e referenceDate =
      .error (if e.modifier = "weekly" then "Invalid day of week: " ++ e.baseDate
              else "Unknown modifier: " ++ e.modifier) ∧
    (getActiveEvents
        { eventsConfig := some { repeating_events := r1 ++ e :: r2, one_time_events := ots },
          cachedActiveEvents := none, lastUpdateTime := none }
        currentDate forceRefresh).1
      = (getActiveEvents
          { eventsConfig := some { repeating_events := r1 ++ r2, one_time_events := ots },
            cachedActiveEvents := none, lastUpdateTime := none }
          currentDate forceRefresh).1 ∧
    getUpcomingEvents
        { eventsConfig := some { repeating_events := r1 ++ e :: r2, one_time_events := ots },
          cachedActiveEvents := none, lastUpdateTime := none }
        currentDate daysAhead
      = getUpcomingEvents
          { eventsConfig := some { repeating_events := r1 ++ r2, one_time_events := ots },
            cachedActiveEvents := none, lastUpdateTime := none }
          currentDate daysAhead ∧
    getCalendarForMonth
        { eventsConfig := some { repeating_events := r1 ++ e :: r2, one_time_events := ots },
          cachedActiveEvents := none, lastUpdateTime := none }
        year month
      = getCalendarForMonth
          { eventsConfig := some { repeating_events := r1 ++ r2, one_time_events := ots },
            cachedActiveEvents := none, lastUpdateTime := none }
          year month := by
  have herr : ∀ r : Int, ∃ msg, calculateRepeatingEventDates e r = .error msg :=
    fun r => ⟨_, calcRED_error_of_bad e r hbad⟩
  have h1 : ∀ cd : Int, repeatingActiveEntry cd e = [] := by
    intro cd
    obtain ⟨msg, hm⟩ := herr cd
    simp [repeatingActiveEntry, hm]
  have h3 : ∀ cd ed : Int, repeatingUpcomingEntry cd ed e = [] := by
    intro cd ed
    obtain ⟨msg, hm⟩ := herr cd
    simp [repeatingUpcomingEntry, hm]
  have h5 : ∀ mS mE : Int, repeatingCalendarEntry mS mE e = [] := by
    intro mS mE
    rcases hbad with ⟨hm1, hm2⟩ | ⟨hm1, hm2⟩
    · simp [repeatingCalendarEntry, hm1, hm2]
    · rcases weeklyCalendarSearch_of_error e herr mS mE 6 mS with hok | ⟨msg, hko⟩
      · simp [repeatingCalendarEntry, hm1, hok]
      · simp [repeatingCalendarEntry, hm1, hko]
  refine ⟨calcRED_error_of_bad e referenceDate hbad, ?_, ?_, ?_⟩
  · cases forceRefresh <;>
      simp [getActiveEvents, computeActiveEvents, List.flatMap_append,
        List.flatMap_cons, h1]
  · simp [getUpcomingEvents, computeUpcomingEvents, List.flatMap_append,
      List.flatMap_cons, h3]
  · simp [getCalendarForMonth, List.flatMap_append, List.flatMap_cons, h5]

/-- Witness for bad_definition_skipped: a definition with the unknown
modifier yearly raises the Unknown modifier error and is skipped by
getActiveEvents while the Gold Pass is still returned. -/
theorem bad_definition_skipped_witness :
    calculateRepeatingEventDates
      { title := "Bad", icon := "", image := none, description := none,
        modifier := "yearly", baseDate := "01", durationDays := 3, active := none } 0 =
      .error (if ("yearly" : String) = "weekly" then "Invalid day of week: " ++ "01"
              else "Unknown modifier: " ++ "yearly") :=
  (bad_definition_skipped
    { title := "Bad", icon := "", image := none, description := none,
      modifier := "yearly", baseDate := "01", durationDays := 3, active := none }
    (Or.inl ⟨by decide, by decide⟩)
    [] [goldPassEvent] [] 0 1767258000000 30 2026 0 false).1

/-! Calendar arithmetic lemmas.  The central facts are that civilFromDays
is a section of daysFromCivil and that every instant precedes the first
instant of the next UTC month; they justify the rolled windows of the
monthly calculation. -/

set_option maxHeartbeats 16000000 in
/-- Correctness of the year-of-era formula of civilFromDays: within one
400-year era the computed year brackets the day-of-era. -/
theorem yoeFacts (doe yoe : Int) (h0 : 0 ≤ doe) (h1 : doe ≤ 146096)
    (hy : yoe = (doe - doe / 1460 + doe / 36524 - doe / 146096) / 365) :
    0 ≤ yoe ∧ yoe ≤ 399 ∧
    365 * yoe + yoe / 4 - yoe / 100 ≤ doe ∧
    (yoe ≤ 398 → doe < 365 * (yoe + 1) + (yoe + 1) / 4 - (yoe + 1) / 100) := by
  have hev : ∃ e : Int, doe / 1460 = e ∧ 1460 * e ≤ doe ∧ doe < 1460 * (e + 1) ∧ 0 ≤ e ∧ e ≤ 100 :=
    ⟨doe / 1460, rfl, by omega, by omega, by omega, by omega⟩
  obtain ⟨e, he, he1, he2, he3, he4⟩ := hev
  rw [he] at hy
  interval_cases e <;>
    first
    | omega
    | (have hc : doe / 36524 = 0 ∨ doe / 36524 = 1 ∨ doe / 36524 = 2 ∨ doe / 36524 = 3 := by
         omega
       rcases hc with hc | hc | hc | hc <;> omega)

set_option maxHeartbeats 1600000 in
/-- Core inversion facts about civilFromDays, stated over its intermediate
quantities: the produced month and day are in range, daysFromCivil sends
the triple back to the argument, and the argument lies strictly before the
first day of the following month. -/
theorem civilCore (z era doe yoe doy mp d m y : Int)
    (hera : era = (z + 719468) / 146097)
    (hdoe : doe = z + 719468 - era * 146097)
    (hyoe : yoe = (doe - doe / 1460 + doe / 36524 - doe / 146096) / 365)
    (hdoy : doy = doe - (365 * yoe + yoe / 4 - yoe / 100))
    (hmp : mp = (5 * doy + 2) / 153)
    (hd : d = doy - (153 * mp + 2) / 5 + 1)
    (hm : m = (if mp < 10 then mp + 3 else mp - 9))
    (hy : y = (if m ≤ 2 then yoe + era * 400 + 1 else yoe + era * 400)) :
    1 ≤ m ∧ m ≤ 12 ∧ 1 ≤ d ∧ d ≤ 31 ∧
    daysFromCivil y m d = z ∧
    z < daysFromCivil (if m = 12 then y + 1 else y) (if m = 12 then 1 else m + 1) 1 := by
  obtain ⟨hy0, hy399, hylb, hyub⟩ :=
    yoeFacts doe yoe (by omega) (by omega) hyoe
  have hdoy365 : 0 ≤ doy ∧ doy ≤ 365 := by
    by_cases hy8 : yoe ≤ 398
    · have := hyub hy8
      omega
    · omega
  have he1 : (yoe + era * 400) / 400 = era := by omega
  have he2 : yoe + era * 400 - era * 400 = yoe := by ring
  split_ifs at hm with hmp10
  · rw [if_neg (by omega : ¬ m ≤ 2)] at hy
    subst hy
    refine ⟨by omega, by omega, by omega, by omega, ?_, ?_⟩
    · unfold daysFromCivil
      rw [if_neg (by omega : ¬ m ≤ 2)]
      simp only
      rw [he1, he2, (by omega : (m + 9) % 12 = mp)]
      omega
    · by_cases h12 : m = 12
      · rw [if_pos h12, if_pos h12]
        unfold daysFromCivil
        rw [if_pos (by omega : (1 : Int) ≤ 2)]
        simp only
        rw [(by ring : yoe + era * 400 + 1 - 1 = yoe + era * 400), he1, he2,
          (by omega : ((1 : Int) + 9) % 12 = 10)]
        omega
      · rw [if_neg h12, if_neg h12]
        unfold daysFromCivil
        rw [if_neg (by omega : ¬ m + 1 ≤ 2)]
        simp only
        rw [he1, he2, (by omega : (m + 1 + 9) % 12 = mp + 1)]
        omega
  · have hmpb : mp = 10 ∨ mp = 11 := by omega
    rw [if_pos (by omega : m ≤ 2)] at hy
    subst hy
    refine ⟨by omega, by omega, by omega, by omega, ?_, ?_⟩
    · unfold daysFromCivil
      rw [if_pos (by omega : m ≤ 2)]
      simp only
      rw [(by ring : yoe + era * 400 + 1 - 1 = yoe + era * 400), he1, he2,
        (by omega : (m + 9) % 12 = mp)]
      omega
    · rw [if_neg (by omega : ¬ m = 12), if_neg (by omega : ¬ m = 12)]
      rcases hmpb with hmp2 | hmp2
      · unfold daysFromCivil
        rw [if_pos (by omega : m + 1 ≤ 2)]
        simp only
        rw [(by ring : yoe + era * 400 + 1 - 1 = yoe + era * 400), he1, he2,
          (by omega : (m + 1 + 9) % 12 = 11)]
        omega
      · unfold daysFromCivil
        rw [if_neg (by omega : ¬ m + 1 ≤ 2)]
        simp only
        rw [(by omega : (m + 1 + 9) % 12 = 0)]
        by_cases hy8 : yoe ≤ 398
        · rw [(by omega : (yoe + era * 400 + 1) / 400 = era),
            (by ring : yoe + era * 400 + 1 - era * 400 = yoe + 1)]
          have := hyub hy8
          omega
        · rw [(by omega : (yoe + era * 400 + 1) / 400 = era + 1),
            (by omega : yoe + era * 400 + 1 - (era + 1) * 400 = 0)]
          omega

/-- Specialization of civilCore to civilFromDays itself. -/
theorem civilFromDays_spec (z : Int) :
    1 ≤ (civilFromDays z).month ∧ (civilFromDays z).month ≤ 12 ∧
    1 ≤ (civilFromDays z).day ∧ (civilFromDays z).day ≤ 31 ∧
    daysFromCivil (civilFromDays z).year (civilFromDays z).month (civilFromDays z).day = z ∧
    z < daysFromCivil
        (if (civilFromDays z).month = 12 then (civilFromDays z).year + 1 else (civilFromDays z).year)
        (if (civilFromDays z).month = 12 then 1 else (civilFromDays z).month + 1) 1 :=
  civilCore z _ _ _ _ _ _ _ _ rfl rfl rfl rfl rfl rfl rfl rfl

/-- daysFromCivil is linear in its day argument. -/
theorem daysFromCivil_day (y m d : Int) :
    daysFromCivil y m d = daysFromCivil y m 1 + (d - 1) := by
  unfold daysFromCivil
  split_ifs <;> (simp only; ring)

/-- dateUTC with a month already in 0..11 needs no normalization. -/
theorem dateUTC_of_month_range (y m d h mi s ms : Int) (h0 : 0 ≤ m) (h11 : m ≤ 11) :
    dateUTC y m d h mi s ms =
      daysFromCivil y (m + 1) d * 86400000 + h * 3600000 + mi * 60000 + s * 1000 + ms := by
  unfold dateUTC
  rw [(by omega : m / 12 = 0), (by omega : m % 12 = m), add_zero]

/-- dateUTC is linear in its day argument. -/
theorem dateUTC_day_linear (y m d h mi s ms : Int) :
    dateUTC y m d h mi s ms = dateUTC y m 1 h mi s ms + (d - 1) * 86400000 := by
  unfold dateUTC
  simp only
  rw [daysFromCivil_day (y + m / 12) (m % 12 + 1) d]
  ring

/-- Separation of the time-of-day offsets of dateUTC. -/
theorem dateUTC_shift_hours (y m d h mi s ms : Int) :
    dateUTC y m d h mi s ms = dateUTC y m d 0 0 0 0 + h * 3600000 + mi * 60000 + s * 1000 + ms := by
  unfold dateUTC
  ring

/-- dateUTC with month argument 12 rolls into January of the next year. -/
theorem dateUTC_twelve (y d h mi s ms : Int) :
    dateUTC y 12 d h mi s ms =
      daysFromCivil (y + 1) 1 d * 86400000 + h * 3600000 + mi * 60000 + s * 1000 + ms := by
  unfold dateUTC
  norm_num

/-- Every instant lies strictly before the first instant of the next UTC
month, computed as the code does via Date.UTC(year, month + 1, 1). -/
theorem nextMonthStart_gt (t : Int) :
    t < dateUTC (getUTCFullYear t) (getUTCMonth t + 1) 1 0 0 0 0 := by
  obtain ⟨h1, h12, hd1, hd31, hrt, hnext⟩ := civilFromDays_spec (epochDay t)
  unfold getUTCFullYear getUTCMonth
  rw [(by ring : (civilFromDays (epochDay t)).month - 1 + 1 = (civilFromDays (epochDay t)).month)]
  by_cases hm12 : (civilFromDays (epochDay t)).month = 12
  · rw [hm12] at hnext ⊢
    norm_num at hnext
    rw [dateUTC_twelve]
    simp only [epochDay] at hnext ⊢
    omega
  · rw [if_neg hm12, if_neg hm12] at hnext
    rw [dateUTC_of_month_range _ _ _ _ _ _ _ (by omega) (by omega)]
    simp only [epochDay] at hnext ⊢
    omega

/-- A monthly window always ends strictly after the reference it was
computed against, provided the configured day of month is at least 1 and
the duration is nonnegative. -/
theorem calculateMonthlyEvent_ref_lt_stop (baseDate : String)
    (durationDays referenceDate : Int)
    (hdom : 1 ≤ parseIntDecimal baseDate) (hdur : 0 ≤ durationDays) :
    referenceDate < (calculateMonthlyEvent baseDate durationDays referenceDate).stop := by
  obtain ⟨h1, h12, hd1, hd31, hrt, hnext⟩ := civilFromDays_spec (epochDay referenceDate)
  have hnm := nextMonthStart_gt referenceDate
  unfold getUTCFullYear getUTCMonth at hnm
  unfold calculateMonthlyEvent
  unfold getUTCFullYear getUTCMonth getUTCDate
  simp only
  have hpS : dateUTC (civilFromDays (epochDay referenceDate)).year
      ((civilFromDays (epochDay referenceDate)).month - 1) (parseIntDecimal baseDate) 8 0 0 0
      = (epochDay referenceDate - (civilFromDays (epochDay referenceDate)).day
          + parseIntDecimal baseDate) * 86400000 + 28800000 := by
    rw [dateUTC_of_month_range _ _ _ _ _ _ _ (by omega) (by omega)]
    rw [(by ring : (civilFromDays (epochDay referenceDate)).month - 1 + 1
      = (civilFromDays (epochDay referenceDate)).month)]
    rw [daysFromCivil_day (civilFromDays (epochDay referenceDate)).year
      (civilFromDays (epochDay referenceDate)).month (parseIntDecimal baseDate)]
    have hday1 : daysFromCivil (civilFromDays (epochDay referenceDate)).year
        (civilFromDays (epochDay referenceDate)).month 1
        = epochDay referenceDate - ((civilFromDays (epochDay referenceDate)).day - 1) := by
      have hlin := daysFromCivil_day (civilFromDays (epochDay referenceDate)).year
        (civilFromDays (epochDay referenceDate)).month
        (civilFromDays (epochDay referenceDate)).day
      omega
    rw [hday1]
    ring
  have hnS : referenceDate < dateUTC (civilFromDays (epochDay referenceDate)).year
      ((civilFromDays (epochDay referenceDate)).month - 1 + 1)
      (parseIntDecimal baseDate) 8 0 0 0 + durationDays * 86400000 := by
    rw [dateUTC_day_linear, dateUTC_shift_hours]
    omega
  split_ifs with hc1 hc2
  · simp only [addDays]
    rw [hpS]
    simp only [epochDay] at hc1 hd1 hd31 ⊢
    omega
  · simp only [addDays] at hc2 ⊢
    rw [hpS] at hc2 ⊢
    omega
  · simp only [addDays]
    omega

/-- A weekly window always ends strictly after the reference it was
computed against, for a nonnegative duration. -/
theorem calculateWeeklyEvent_ref_lt_stop (baseDate : String)
    (durationDays referenceDate : Int) (w : Window) (hdur : 0 ≤ durationDays)
    (h : calculateWeeklyEvent baseDate durationDays referenceDate = .ok w) :
    referenceDate < w.stop := by
  unfold calculateWeeklyEvent at h
  cases hidx : dayOfWeekIndex baseDate with
  | none =>
    rw [hidx] at h
    exact absurd h (by simp)
  | some targetDay =>
    obtain ⟨ht0, ht6⟩ := dayOfWeekIndex_bounds baseDate targetDay hidx
    rw [hidx] at h
    simp only [atHour8, addDays, epochDay, getUTCDay] at h
    split_ifs at h <;> (cases h; simp only; omega)

/-- Any successfully computed repeating window ends strictly after the
reference, given the configuration invariants on the definition. -/
theorem calcRED_ref_lt_stop (event : RepeatingEvent) (referenceDate : Int) (w : Window)
    (hdur : 0 ≤ event.durationDays)
    (hdom : event.modifier = "monthly" → 1 ≤ parseIntDecimal event.baseDate)
    (h : calculateRepeatingEventDates event referenceDate = .ok w) :
    referenceDate < w.stop := by
  unfold calculateRepeatingEventDates at h
  split_ifs at h with hmod1 hmod2
  all_goals first
    | (cases h
       exact calculateMonthlyEvent_ref_lt_stop event.baseDate event.durationDays
         referenceDate (hdom hmod1) hdur)
    | exact calculateWeeklyEvent_ref_lt_stop event.baseDate event.durationDays
        referenceDate w hdur h

/-- Written from the spec sentence for getUpcomingEvents: a repeating
definition is included exactly when its window overlaps the queried range,
that is window.start < reference + daysAhead days AND window.end >
reference.  Identical to repeatingUpcomingEntry except for the added
currentDate < w.stop conjunct; the one-time branch of the code already
tests the overlap literally, so specUpcomingEvents reuses
oneTimeUpcomingEntry unchanged. -/
def specUpcomingRepeatingEntry (currentDate endDate : Int) (event : RepeatingEvent) :
    List UpcomingEvent :=
  if event.active = some false then []
  else
    match calculateRepeatingEventDates event currentDate with
    | .error _ => []
    | .ok w =>
      if w.start < endDate ∧ currentDate < w.stop then
        [{ title := event.title, icon := event.icon, image := event.image,
           description := event.description.getD "",
           type := "repeating", modifier := some event.modifier,
           start := w.start, stop := w.stop,
           isActive := decide (w.start ≤ currentDate ∧ currentDate < w.stop) }]
      else []

/-- Written from the spec: getUpcomingEvents returns exactly the
definitions whose window overlaps the range, sorted ascending by start. -/
def specUpcomingEvents (config : EventsConfig) (currentDate daysAhead : Int) :
    List UpcomingEvent :=
  let endDate := addDays currentDate daysAhead
  sortUpcoming
    (config.repeating_events.flatMap (specUpcomingRepeatingEntry currentDate endDate)
      ++ config.one_time_events.flatMap (oneTimeUpcomingEntry currentDate endDate))

/-- Congruence of flatMap over pointwise equal functions. -/
theorem flatMapCongr {α β : Type} {l : List α} {f g : α → List β}
    (h : ∀ x ∈ l, f x = g x) : l.flatMap f = l.flatMap g := by
  induction l with
  | nil => rfl
  | cons a l ih =>
    simp only [List.flatMap_cons]
    rw [h a (by simp), ih (fun x hx => h x (by simp [hx]))]

/-- The per-definition test of the code equals the overlap test of the
spec, because a computed repeating window always ends after the
reference. -/
theorem upcomingEntry_eq_spec (currentDate endDate : Int) (event : RepeatingEvent)
    (hdur : 0 ≤ event.durationDays)
    (hdom : event.modifier = "monthly" → 1 ≤ parseIntDecimal event.baseDate) :
    repeatingUpcomingEntry currentDate endDate event =
      specUpcomingRepeatingEntry currentDate endDate event := by
  unfold repeatingUpcomingEntry specUpcomingRepeatingEntry
  by_cases ha : event.active = some false
  · simp [ha]
  · cases hcalc : calculateRepeatingEventDates event currentDate with
    | error msg => simp [ha, hcalc]
    | ok w =>
      have hlt : currentDate < w.stop :=
        calcRED_ref_lt_stop event currentDate w hdur hdom hcalc
      simp [ha, hcalc, hlt]

/-- C2: for every reference instant and daysAhead, getUpcomingEvents
returns exactly the non-soft-deleted definitions whose computed window
overlaps [reference, reference + daysAhead days) - that is, those with
window.start < reference + daysAhead days AND window.end > reference -
so events already ended at the reference are excluded.  Stated as equality
with the spec-side definition, under the configuration invariants that
repeating durations are nonnegative and monthly base dates parse to a day
of month of at least 1. -/
theorem upcoming_exactly_overlap (config : EventsConfig) (currentDate daysAhead : Int)
    (hwf : ∀ e ∈ config.repeating_events, 0 ≤ e.durationDays ∧
      (e.modifier = "monthly" → 1 ≤ parseIntDecimal e.baseDate))
    (cached : Option (List ActiveEvent)) (lastUpdate : Option Int) :
    getUpcomingEvents
        { eventsConfig := some config, cachedActiveEvents := cached,
          lastUpdateTime := lastUpdate } currentDate daysAhead
      = specUpcomingEvents config currentDate daysAhead ∧
    computeUpcomingEvents config currentDate daysAhead
      = specUpcomingEvents config currentDate daysAhead := by
  have hmain : computeUpcomingEvents config currentDate daysAhead
      = specUpcomingEvents config currentDate daysAhead := by
    unfold computeUpcomingEvents specUpcomingEvents
    simp only
    congr 1
    congr 1
    exact flatMapCongr (fun e he =>
      upcomingEntry_eq_spec currentDate (addDays currentDate daysAhead) e
        (hwf e he).1 (hwf e he).2)
  exact ⟨hmain, hmain⟩

/-- Witness for upcoming_exactly_overlap on the Gold Pass configuration at
2026-01-01T09:00Z with the default 30-day horizon. -/
theorem upcoming_exactly_overlap_witness :
    getUpcomingEvents goldPassState 1767258000000 30 =
      specUpcomingEvents { repeating_events := [goldPassEvent], one_time_events := [] }
        1767258000000 30 :=
  (upcoming_exactly_overlap
    { repeating_events := [goldPassEvent], one_time_events := [] }
    1767258000000 30 (by decide) none none).1

/-- C9: a definition with active = false (repeating or one-time) is
excluded from every query: inserting it anywhere in the configuration
leaves the results of getActiveEvents, getUpcomingEvents and
getCalendarForMonth unchanged, for every reference instant, horizon,
forceRefresh flag and queried month. -/
theorem soft_delete_excluded (r1 r2 : List RepeatingEvent) (e : RepeatingEvent)
    (o1 o2 : List OneTimeEvent) (f : OneTimeEvent)
    (he : e.active = some false) (hf : f.active = some false)
    (currentDate daysAhead year month : Int) (forceRefresh : Bool) :
    (getActiveEvents
        { eventsConfig := some
            { repeating_events := r1 ++ e :: r2, one_time_events := o1 ++ f :: o2 },
          cachedActiveEvents := none, lastUpdateTime := none }
        currentDate forceRefresh).1
      = (getActiveEvents
          { eventsConfig := some
              { repeating_events := r1 ++ r2, one_time_events := o1 ++ o2 },
            cachedActiveEvents := none, lastUpdateTime := none }
          currentDate forceRefresh).1 ∧
    getUpcomingEvents
        { eventsConfig := some
            { repeating_events := r1 ++ e :: r2, one_time_events := o1 ++ f :: o2 },
          cachedActiveEvents := none, lastUpdateTime := none }
        currentDate daysAhead
      = getUpcomingEvents
          { eventsConfig := some
              { repeating_events := r1 ++ r2, one_time_events := o1 ++ o2 },
            cachedActiveEvents := none, lastUpdateTime := none }
          currentDate daysAhead ∧
    getCalendarForMonth
        { eventsConfig := some
            { repeating_events := r1 ++ e :: r2, one_time_events := o1 ++ f :: o2 },
          cachedActiveEvents := none, lastUpdateTime := none }
        year month
      = getCalendarForMonth
          { eventsConfig := some
              { repeating_events := r1 ++ r2, one_time_events := o1 ++ o2 },
            cachedActiveEvents := none, lastUpdateTime := none }
          year month := by
  have h1 : ∀ cd : Int, repeatingActiveEntry cd e = [] := by
    intro cd
    simp [repeatingActiveEntry, he]
  have h2 : ∀ cd : Int, oneTimeActiveEntry cd f = [] := by
    intro cd
    simp [oneTimeActiveEntry, hf]
  have h3 : ∀ cd ed : Int, repeatingUpcomingEntry cd ed e = [] := by
    intro cd ed
    simp [repeatingUpcomingEntry, he]
  have h4 : ∀ cd ed : Int, oneTimeUpcomingEntry cd ed f = [] := by
    intro cd ed
    simp [oneTimeUpcomingEntry, hf]
  have h5 : ∀ mS mE : Int, repeatingCalendarEntry mS mE e = [] := by
    intro mS mE
    simp [repeatingCalendarEntry, he]
  have h6 : ∀ mS mE : Int, oneTimeCalendarEntry mS mE f = [] := by
    intro mS mE
    simp [oneTimeCalendarEntry, hf]
  refine ⟨?_, ?_, ?_⟩
  · cases forceRefresh <;>
      simp [getActiveEvents, computeActiveEvents, List.flatMap_append,
        List.flatMap_cons, h1, h2]
  · simp [getUpcomingEvents, computeUpcomingEvents, List.flatMap_append,
      List.flatMap_cons, h3, h4]
  · simp [getCalendarForMonth, List.flatMap_append, List.flatMap_cons, h5, h6]

/-- Witness for soft_delete_excluded: a soft-deleted Gold Pass and a
soft-deleted one-time event contribute nothing to any query. -/
theorem soft_delete_excluded_witness :
    (getActiveEvents
        { eventsConfig := some
            { repeating_events :=
                [] ++ { goldPassEvent with active := some false } :: [goldPassEvent],
              one_time_events :=
                [] ++ ({ title := "Off", icon := "", image := none, description := none,
                         start := 0, stop := 1, active := some false } : OneTimeEvent) :: [] },
          cachedActiveEvents := none, lastUpdateTime := none } 1767258000000 false).1
      = (getActiveEvents
          { eventsConfig := some
              { repeating_events := [] ++ [goldPassEvent], one_time_events := [] ++ [] },
            cachedActiveEvents := none, lastUpdateTime := none } 1767258000000 false).1 :=
  (soft_delete_excluded [] [goldPassEvent] { goldPassEvent with active := some false }
    [] []
    { title := "Off", icon := "", image := none, description := none,
      start := 0, stop := 1, active := some false }
    rfl rfl 1767258000000 30 2026 0 false).1

end EventsManager
